import Mathlib

/-!
Verification of the Lost-and-Found item repository (src/app.py).

The development shallowly embeds the item store and identifier-resolution
logic of `app.py`:

* Strings are modelled as `List Char` (Python `str`); `chars` converts a
  Lean string literal to that representation.
* The persisted CSV table is modelled as `Option (List Row)`: `none` is a
  missing `data/items.csv` file, `some rows` an existing file holding
  `rows` (a header-only file is `some []`).  Cells are `Cell`: a string, a
  number, or a missing value (pandas `NaN`).  Writing a dataframe with
  `to_csv` and reading it back with `read_csv` turns an empty-string cell
  into `NaN`; `normRow` captures this round-trip normalisation, applied at
  save time.
* Stateful functions of `app.py` become explicit state-passing functions
  on `Option (List Row)`.
-/

set_option maxHeartbeats 1000000

namespace LostFound

/-- Convert a Lean string literal to the `List Char` model of Python strings. -/
def chars (s : String) : List Char := s.data

/-- The QR payload prefix `"Item ID: "` used by `generate_qr_code`
(`qr.add_data(f"Item ID: {item_id}")`) and by the scanner's
`data.startswith("Item ID: ")` check. -/
def itemIdPat : List Char := ['I', 't', 'e', 'm', ' ', 'I', 'D', ':', ' ']

/-- Python whitespace test for `str.strip()` (ASCII whitespace). -/
def pySpace (c : Char) : Bool :=
  c == ' ' || c == '\t' || c == '\n' || c == '\r' || c == Char.ofNat 11 || c == Char.ofNat 12

/-- Python `str.strip()`: remove leading and trailing whitespace. -/
def pyStrip (s : List Char) : List Char :=
  ((s.dropWhile pySpace).reverse.dropWhile pySpace).reverse

/-- Python substring test `pat in s`. -/
def containsSub (pat : List Char) : List Char → Bool
  | [] => pat.isEmpty
  | c :: cs => pat.isPrefixOf (c :: cs) || containsSub pat cs

/-- Python `s.replace("Item ID: ", "")`: remove every (left-to-right,
non-overlapping) occurrence of `"Item ID: "`. -/
def removeItemIdAll : List Char → List Char
  | 'I' :: 't' :: 'e' :: 'm' :: ' ' :: 'I' :: 'D' :: ':' :: ' ' :: rest => removeItemIdAll rest
  | c :: cs => c :: removeItemIdAll cs
  | [] => []

/-- The payload embedded in a generated QR image for an item id:
`f"Item ID: {item_id}"` in `generate_qr_code` (src/app.py:163). -/
def encodePayload (id : List Char) : List Char := itemIdPat ++ id

/-- The scanner's recognition-and-extraction step (src/app.py:318-319):
`if data.startswith("Item ID: "): item_id = data.replace("Item ID: ", "").strip()`;
`none` models the payload not being recognised. -/
def decodePayload (raw : List Char) : Option (List Char) :=
  if itemIdPat.isPrefixOf raw then some (pyStrip (removeItemIdAll raw)) else none

/-- Modelled from the spec's words (§4.2), for comparison with `decodePayload`:
"if it begins with the literal prefix `\x7bItem ID: \x7d`, strips the prefix and
surrounding whitespace and returns the remainder". -/
def decodePayloadSpec (raw : List Char) : Option (List Char) :=
  if itemIdPat.isPrefixOf raw then some (pyStrip (raw.drop 9)) else none

/-- Python `str.lower()` restricted to ASCII (the only characters occurring
in the program's data): map `A`-`Z` to `a`-`z`. -/
def pyLowerChar (c : Char) : Char :=
  if 65 ≤ c.toNat ∧ c.toNat ≤ 90 then Char.ofNat (c.toNat + 32) else c

/-- Python `str.upper()` restricted to ASCII: map `a`-`z` to `A`-`Z`. -/
def pyUpperChar (c : Char) : Char :=
  if 97 ≤ c.toNat ∧ c.toNat ≤ 122 then Char.ofNat (c.toNat - 32) else c

/-- Python `s.lower()` on the list-of-characters model. -/
def pyLower (s : List Char) : List Char := s.map pyLowerChar

/-- Python `s.upper()` on the list-of-characters model. -/
def pyUpper (s : List Char) : List Char := s.map pyUpperChar

/-! ## The persisted table -/

/-- A dataframe cell: a string, a number, or a missing value (pandas `NaN`). -/
inductive Cell where
  | str (s : List Char)
  | num (q : ℚ)
  | nan
deriving DecidableEq

/-- One record of the persisted table, with the column schema of
`load_data` / `create_sample_data` (src/app.py:152-156, 125-136). -/
structure Row where
  id : Cell
  type : Cell
  title : Cell
  description : Cell
  category : Cell
  image_path : Cell
  latitude : Cell
  longitude : Cell
  reported_at : Cell
  qr_code_path : Cell
deriving DecidableEq

/-- The CSV round trip (`df.to_csv` then `pd.read_csv`) writes an
empty-string cell as an empty field, which reads back as `NaN`. -/
def normCell : Cell → Cell
  | Cell.str [] => Cell.nan
  | c => c

/-- Function `normCell` applied to every cell of a record. -/
def normRow (r : Row) : Row where
  id := normCell r.id
  type := normCell r.type
  title := normCell r.title
  description := normCell r.description
  category := normCell r.category
  image_path := normCell r.image_path
  latitude := normCell r.latitude
  longitude := normCell r.longitude
  reported_at := normCell r.reported_at
  qr_code_path := normCell r.qr_code_path

/-- The three hard-coded sample records of `create_sample_data`
(src/app.py:84-137), with the derived image and QR-code paths. -/
def sampleRows : List Row :=
  [ { id := Cell.str (chars "11111111-aaaa-bbbb-cccc-111111111111")
    , type := Cell.str (chars "lost")
    , title := Cell.str (chars "Blue Backpack")
    , description := Cell.str (chars "Lost a blue backpack near the library")
    , category := Cell.str (chars "Bags")
    , image_path := Cell.str (chars "images/11111111-aaaa-bbbb-cccc-111111111111.png")
    , latitude := Cell.num (Rat.divInt 129716 10000)
    , longitude := Cell.num (Rat.divInt 775946 10000)
    , reported_at := Cell.str (chars "2025-08-10 10:00:00")
    , qr_code_path := Cell.str (chars "images/qr_codes/11111111-aaaa-bbbb-cccc-111111111111.png") }
  , { id := Cell.str (chars "22222222-bbbb-cccc-dddd-222222222222")
    , type := Cell.str (chars "found")
    , title := Cell.str (chars "Silver Wristwatch")
    , description := Cell.str (chars "Found a silver wristwatch in the cafeteria")
    , category := Cell.str (chars "Accessories")
    , image_path := Cell.str (chars "images/22222222-bbbb-cccc-dddd-222222222222.png")
    , latitude := Cell.num (Rat.divInt 129720 10000)
    , longitude := Cell.num (Rat.divInt 775950 10000)
    , reported_at := Cell.str (chars "2025-08-09 14:30:00")
    , qr_code_path := Cell.str (chars "images/qr_codes/22222222-bbbb-cccc-dddd-222222222222.png") }
  , { id := Cell.str (chars "33333333-cccc-dddd-eeee-333333333333")
    , type := Cell.str (chars "lost")
    , title := Cell.str (chars "Black Jacket")
    , description := Cell.str (chars "Black jacket lost in auditorium")
    , category := Cell.str (chars "Clothing")
    , image_path := Cell.str (chars "images/33333333-cccc-dddd-eeee-333333333333.png")
    , latitude := Cell.num (Rat.divInt 129705 10000)
    , longitude := Cell.num (Rat.divInt 775930 10000)
    , reported_at := Cell.str (chars "2025-08-08 18:20:00")
    , qr_code_path := Cell.str (chars "images/qr_codes/33333333-cccc-dddd-eeee-333333333333.png") }
  ]

/-- The file-system state of the store: `none` when `data/items.csv` is
missing, `some rows` when it exists and holds `rows`. -/
abbrev StoreState := Option (List Row)

/-- Source `create_sample_data` (src/app.py:77-140): if the table file exists and
is non-empty, leave it alone; otherwise build the three sample records and
write them (`df.to_csv`, hence `normRow`). -/
def create_sample_data (fs : StoreState) : StoreState :=
  match fs with
  | some rows => if rows.isEmpty then some (sampleRows.map normRow) else some rows
  | none => some (sampleRows.map normRow)

/-- Source `load_data` (src/app.py:146-156): first run `create_sample_data`, then
read the table if it exists else return an empty frame with the column
schema.  Returns the post-call file state together with the dataframe. -/
def load_data (fs : StoreState) : StoreState × List Row :=
  match create_sample_data fs with
  | some rows => (some rows, rows)
  | none => (none, [])

/-- Source `save_data` (src/app.py:158-159): replace the table file with `df.to_csv`
(the CSV round trip normalises empty-string cells to `NaN`). -/
def save_data (rows : List Row) : StoreState := some (rows.map normRow)

/-! ## Reporting an item -/

/-- The `new_item` dictionary built on submission in `report_item_page`
(src/app.py:209-220).  `id` is the generated UUID string, `reported_at` the
formatted current time; both are inputs of the model. -/
structure Item where
  id : List Char
  type : List Char
  title : List Char
  description : List Char
  category : List Char
  image_path : List Char
  latitude : ℚ
  longitude : ℚ
  reported_at : List Char
  qr_code_path : List Char

/-- The dataframe row corresponding to `new_item`. -/
def itemToRow (it : Item) : Row where
  id := Cell.str it.id
  type := Cell.str it.type
  title := Cell.str it.title
  description := Cell.str it.description
  category := Cell.str it.category
  image_path := Cell.str it.image_path
  latitude := Cell.num it.latitude
  longitude := Cell.num it.longitude
  reported_at := Cell.str it.reported_at
  qr_code_path := Cell.str it.qr_code_path

/-- The append path of `report_item_page` (src/app.py:186, 222-223):
`df = load_data()`, `df = pd.concat([df, pd.DataFrame([new_item])])`,
`save_data(df)`.  Returns the new file state. -/
def append_report (fs : StoreState) (it : Item) : StoreState :=
  save_data ((load_data fs).2 ++ [itemToRow it])

/-! ## Looking an item up by id -/

/-- The scanner's lookup (src/app.py:321-323): `item = df[df["id"] == item_id]`
followed by `item.iloc[0]` when the selection is non-empty; `none` models
the "No item found with this ID." outcome. -/
def findRows (rows : List Row) (id : List Char) : Option Row :=
  (rows.filter (fun r => decide (r.id = Cell.str id))).head?

/-- The full lookup of `qr_code_scanner_page`: reload the table, then select
by id.  Returns the post-load file state and the lookup result. -/
def findById (fs : StoreState) (id : List Char) : StoreState × Option Row :=
  ((load_data fs).1, findRows (load_data fs).2 id)

/-! ## Browsing and searching -/

/-- The type filter of `browse_items_page` (src/app.py:233-235):
`if filter_type != "All": df = df[df["type"] == filter_type]`; `none`
models the "All" choice. -/
def kindFilter (kind : Option (List Char)) (rows : List Row) : List Row :=
  match kind with
  | none => rows
  | some k => rows.filter (fun r => decide (r.type = Cell.str k))

/-- The search lambda of `browse_items_page` (src/app.py:239):
`search_term.lower() in row["title"].lower() or search_term.lower() in
row["description"].lower()`.  Python's `or` short-circuits, and `.lower()`
on a non-string cell (a `NaN` read back from an empty field) raises
`AttributeError`, modelled by `none`. -/
def searchRow (term : List Char) (r : Row) : Option Bool :=
  match r.title with
  | Cell.str t =>
    if containsSub (pyLower term) (pyLower t) then some true
    else
      match r.description with
      | Cell.str d => some (containsSub (pyLower term) (pyLower d))
      | _ => none
  | _ => none

/-- Selection `df[df.apply(lambda row: ..., axis=1)]`: keep the rows on which the
search lambda returns `True`; the whole selection raises (`none`) as soon
as the lambda raises on some row. -/
def searchFilter (term : List Char) : List Row → Option (List Row)
  | [] => some []
  | r :: rs =>
    match searchRow term r, searchFilter term rs with
    | some b, some rest => some (if b then r :: rest else rest)
    | _, _ => none

/-- The combined filter of `browse_items_page` (src/app.py:233-239): type
filter first, then — only when the search box is non-empty (`if search_term:`)
— the title/description search. -/
def browseFilter (kind : Option (List Char)) (term : List Char) (rows : List Row) :
    Option (List Row) :=
  if term = [] then some (kindFilter kind rows) else searchFilter term (kindFilter kind rows)

/-- The browse page as a store operation: reload, then filter. -/
def filterBy (fs : StoreState) (kind : Option (List Char)) (term : List Char) :
    StoreState × Option (List Row) :=
  ((load_data fs).1, browseFilter kind term (load_data fs).2)

/-! ## Concrete items and invariant predicates used in the theorems -/

/-- An item submitted with an empty description (the description box left
blank), otherwise well-formed. -/
def item44 : Item where
  id := chars "44444444-dddd-eeee-ffff-444444444444"
  type := chars "lost"
  title := chars "Red Scarf"
  description := []
  category := chars "Clothing"
  image_path := []
  latitude := Rat.divInt 129700 10000
  longitude := Rat.divInt 775900 10000
  reported_at := chars "2025-08-11 09:00:00"
  qr_code_path := chars "images/qr_codes/44444444-dddd-eeee-ffff-444444444444.png"

/-- The string-valued fields of a new item record. -/
def strFields (it : Item) : List (List Char) :=
  [it.id, it.type, it.title, it.description, it.category, it.image_path,
   it.reported_at, it.qr_code_path]

/-- An item submitted with every string field non-empty. -/
def item55 : Item where
  id := chars "55555555-eeee-ffff-aaaa-555555555555"
  type := chars "found"
  title := chars "Green Umbrella"
  description := chars "Found near the gym entrance"
  category := chars "Other"
  image_path := chars "images/55555555-eeee-ffff-aaaa-555555555555.png"
  latitude := Rat.divInt 129710 10000
  longitude := Rat.divInt 775940 10000
  reported_at := chars "2025-08-12 15:45:00"
  qr_code_path := chars "images/qr_codes/55555555-eeee-ffff-aaaa-555555555555.png"

/-- Invariant of every persisted table state: the CSV round trip is the
identity on it (no cell is an empty string — `to_csv` would have written it
as a missing value). -/
abbrev Normalized (fs : StoreState) : Prop :=
  (fs.getD []).map normRow = fs.getD []

/-- An item appended in the C7 witness. -/
def item77 : Item where
  id := chars "77777777-aaaa-bbbb-cccc-777777777777"
  type := chars "lost"
  title := chars "Grey Laptop"
  description := chars "Left in lecture hall B"
  category := chars "Electronics"
  image_path := []
  latitude := Rat.divInt 129708 10000
  longitude := Rat.divInt 775935 10000
  reported_at := chars "2025-08-13 11:00:00"
  qr_code_path := chars "images/qr_codes/77777777-aaaa-bbbb-cccc-777777777777.png"

/-- The cell holds a non-empty string. -/
def titleOkCell : Cell → Bool
  | Cell.str (_ :: _) => true
  | _ => false

/-- Every record of the persisted table has a non-empty-string title. -/
abbrev TitlesOk (fs : StoreState) : Prop :=
  (fs.getD []).all (fun r => titleOkCell r.title) = true

/-- An item submitted with the title box left blank. -/
def item66 : Item where
  id := chars "66666666-ffff-aaaa-bbbb-666666666666"
  type := chars "found"
  title := []
  description := chars "No idea what this is"
  category := chars "Other"
  image_path := []
  latitude := Rat.divInt 129712 10000
  longitude := Rat.divInt 775938 10000
  reported_at := chars "2025-08-14 08:30:00"
  qr_code_path := chars "images/qr_codes/66666666-ffff-aaaa-bbbb-666666666666.png"

/-- An item appended in the C8 witness. -/
def item88 : Item where
  id := chars "88888888-bbbb-cccc-dddd-888888888888"
  type := chars "lost"
  title := chars "Brown Wallet"
  description := chars "Lost near the bus stop"
  category := chars "Accessories"
  image_path := []
  latitude := Rat.divInt 129714 10000
  longitude := Rat.divInt 775942 10000
  reported_at := chars "2025-08-15 17:20:00"
  qr_code_path := chars "images/qr_codes/88888888-bbbb-cccc-dddd-888888888888.png"

/-- The cell is a string (so `.lower()` succeeds on it). -/
def isStrCell : Cell → Bool
  | Cell.str _ => true
  | _ => false

/-- The text of a string cell (`[]` on non-string cells; only used under the
hypothesis that the cell is a string). -/
def cellText : Cell → List Char
  | Cell.str s => s
  | _ => []

/-- The search criterion as the spec states it: the title or the description
contains the term, case-insensitively. -/
def searchPred (term : List Char) (r : Row) : Bool :=
  containsSub (pyLower term) (pyLower (cellText r.title)) ||
  containsSub (pyLower term) (pyLower (cellText r.description))

/-- The kind criterion: the type field equals the selected kind (`none` is
the "All" choice). -/
def kindPred (kind : Option (List Char)) (r : Row) : Bool :=
  match kind with
  | none => true
  | some k => decide (r.type = Cell.str k)

/-- An item submitted with an empty description, used to exhibit the search
failure of C9. -/
def item99 : Item where
  id := chars "99999999-cccc-dddd-eeee-999999999999"
  type := chars "lost"
  title := chars "Lost Pen"
  description := []
  category := chars "Other"
  image_path := []
  latitude := Rat.divInt 129718 10000
  longitude := Rat.divInt 775944 10000
  reported_at := chars "2025-08-16 10:10:00"
  qr_code_path := chars "images/qr_codes/99999999-cccc-dddd-eeee-999999999999.png"

/-! ## Sanity checks by evaluation -/

example : itemIdPat = chars "Item ID: " := by decide

example : decodePayload (encodePayload (chars "abc")) = some (chars "abc") := by decide

example : decodePayload (encodePayload (chars " a")) = some (chars "a") := by decide

example : decodePayload (chars "garbage") = none := by decide

example : decodePayload (encodePayload (chars "aItem ID: b")) = some (chars "ab") := by decide

example : pyLower (chars "JACKET") = chars "jacket" := by decide

example : load_data none = (some sampleRows, sampleRows) := by decide

example : load_data (some []) = (some sampleRows, sampleRows) := by decide

example :
    browseFilter (some (chars "lost")) (chars "JACKET") sampleRows =
      some [sampleRows.get ⟨2, by decide⟩] := by decide

example :
    browseFilter (some (chars "lost")) (chars "jacket") sampleRows =
      some [sampleRows.get ⟨2, by decide⟩] := by decide

/-! ## Helper lemmas on the payload functions -/

theorem isPrefixOf_append_self : ∀ (l t : List Char), l.isPrefixOf (l ++ t) = true := by
  intro l t
  induction l with
  | nil => simp [List.isPrefixOf]
  | cons c cs ih => simp [List.isPrefixOf, ih]

theorem removeItemIdAll_here (rest : List Char) :
    removeItemIdAll (itemIdPat ++ rest) = removeItemIdAll rest := rfl

theorem removeItemIdAll_cons (c : Char) (cs : List Char)
    (h : itemIdPat.isPrefixOf (c :: cs) = false) :
    removeItemIdAll (c :: cs) = c :: removeItemIdAll cs := by
  rw [removeItemIdAll.eq_def]
  split
  · rename_i rest heq
    rw [show c :: cs = itemIdPat ++ rest from heq] at h
    rw [isPrefixOf_append_self] at h
    exact absurd h (by simp)
  · rename_i c' cs' hne h1
    injection h1 with e1 e2
    subst e1
    subst e2
    rfl
  · rename_i heq
    exact absurd heq (by simp)

theorem containsSub_cons (pat : List Char) (c : Char) (cs : List Char) :
    containsSub pat (c :: cs) = (pat.isPrefixOf (c :: cs) || containsSub pat cs) := rfl

theorem removeItemIdAll_of_not_contains :
    ∀ (n : ℕ) (s : List Char), s.length ≤ n → containsSub itemIdPat s = false →
      removeItemIdAll s = s := by
  intro n
  induction n with
  | zero =>
    intro s hlen _
    rw [List.length_eq_zero.mp (Nat.le_zero.mp hlen)]
    rfl
  | succ n ih =>
    intro s hlen hc
    match s with
    | [] => rfl
    | c :: cs =>
      rw [containsSub_cons, Bool.or_eq_false_iff] at hc
      rw [removeItemIdAll_cons c cs hc.1]
      rw [ih cs (Nat.le_of_succ_le_succ hlen) hc.2]

theorem char_toNat_ofNat {n : ℕ} (h : n.isValidChar) : (Char.ofNat n).toNat = n := by
  unfold Char.ofNat
  rw [dif_pos h]
  unfold Char.ofNatAux Char.toNat
  simp [UInt32.toNat, UInt32.ofNat']

theorem pyLowerChar_pyLowerChar (c : Char) : pyLowerChar (pyLowerChar c) = pyLowerChar c := by
  unfold pyLowerChar
  by_cases h : 65 ≤ c.toNat ∧ c.toNat ≤ 90
  · rw [if_pos h]
    have hv : (c.toNat + 32).isValidChar := Or.inl (by omega)
    rw [char_toNat_ofNat hv, if_neg (by omega)]
  · rw [if_neg h, if_neg h]

theorem pyLowerChar_pyUpperChar (c : Char) : pyLowerChar (pyUpperChar c) = pyLowerChar c := by
  unfold pyLowerChar pyUpperChar
  by_cases h : 97 ≤ c.toNat ∧ c.toNat ≤ 122
  · rw [if_pos h]
    have hv : (c.toNat - 32).isValidChar := Or.inl (by omega)
    rw [char_toNat_ofNat hv, if_pos (by omega), if_neg (by omega)]
    have he : c.toNat - 32 + 32 = c.toNat := by omega
    rw [he, Char.ofNat_toNat]
  · rw [if_neg h]

theorem pyLower_pyLower (s : List Char) : pyLower (pyLower s) = pyLower s := by
  induction s with
  | nil => rfl
  | cons c cs ih =>
    simp only [pyLower, List.map_cons] at *
    rw [pyLowerChar_pyLowerChar, ih]

theorem pyLower_pyUpper (s : List Char) : pyLower (pyUpper s) = pyLower s := by
  induction s with
  | nil => rfl
  | cons c cs ih =>
    simp only [pyLower, pyUpper, List.map_cons] at *
    rw [pyLowerChar_pyUpperChar, ih]

theorem pyLower_eq_nil (s : List Char) : pyLower s = [] ↔ s = [] := by
  simp [pyLower]

/-- Reading an existing non-empty table returns it unchanged. -/
theorem load_data_ne_nil (rows : List Row) (h : rows ≠ []) :
    load_data (some rows) = (some rows, rows) := by
  cases rows with
  | nil => exact absurd rfl h
  | cons a as => rfl

/-! ## Claim C1 -/

/-- C1, counterexample: the claim `decodePayload (encodePayload id) = id` for
EVERY id string fails — `.strip()` eats surrounding whitespace of the id, and
`.replace` removes embedded occurrences of `"Item ID: "`. -/
theorem C1_cex :
    decodePayload (encodePayload (chars " a")) ≠ some (chars " a") ∧
    decodePayload (encodePayload (chars "aItem ID: b")) ≠ some (chars "aItem ID: b") := by
  decide

/-- C1 (amended): for every id that carries no leading or trailing whitespace
and does not contain `"Item ID: "` as a substring — in particular every
UUID-formatted id the program generates — decoding the payload produced for
that id returns the id: `decodePayload (encodePayload id) = some id`. -/
theorem C1_decode_encode_roundtrip (id : List Char)
    (h1 : containsSub itemIdPat id = false) (h2 : pyStrip id = id) :
    decodePayload (encodePayload id) = some id := by
  have h3 : removeItemIdAll (itemIdPat ++ id) = id := by
    rw [removeItemIdAll_here]
    exact removeItemIdAll_of_not_contains id.length id le_rfl h1
  simp [decodePayload, encodePayload, isPrefixOf_append_self, h3, h2]

/-- C1, witness: the round trip at a concrete id. -/
theorem C1_witness :
    decodePayload (encodePayload (chars "123e4567-e89b-12d3-a456-426614174000")) =
      some (chars "123e4567-e89b-12d3-a456-426614174000") :=
  C1_decode_encode_roundtrip (chars "123e4567-e89b-12d3-a456-426614174000")
    (by decide) (by decide)

/-! ## Claim C4 -/

/-- C4, counterexample: for a raw string that begins with the prefix but whose
remainder contains a further `"Item ID: "`, `decodePayload` does NOT return the
whitespace-stripped remainder after the leading prefix (it removes every
occurrence), so the claimed description of the accepting branch is false. -/
theorem C4_cex :
    decodePayload (chars "Item ID: Item ID: x") = some (chars "x") ∧
    pyStrip ((chars "Item ID: Item ID: x").drop 9) = chars "Item ID: x" ∧
    decodePayload (chars "Item ID: Item ID: x") ≠ some (chars "Item ID: x") := by
  decide

/-- C4 (amended): `decodePayload` signals NotRecognized (`none`) exactly for
the raw strings that do not begin with `"Item ID: "`; when the raw string is
`"Item ID: " ++ rest` and `rest` contains no further occurrence of
`"Item ID: "`, it returns `rest` stripped of surrounding whitespace, agreeing
there with the spec's prefix-stripping description (`decodePayloadSpec`).  In
general the code removes every occurrence of `"Item ID: "`, not only the
leading one. -/
theorem C4_decodePayload (raw rest : List Char) :
    (decodePayload raw = none ↔ itemIdPat.isPrefixOf raw = false) ∧
    (containsSub itemIdPat rest = false →
      decodePayload (itemIdPat ++ rest) = some (pyStrip rest) ∧
      decodePayload (itemIdPat ++ rest) = decodePayloadSpec (itemIdPat ++ rest)) := by
  constructor
  · rw [decodePayload]
    cases h : itemIdPat.isPrefixOf raw <;> simp [h]
  · intro hc
    have h3 : removeItemIdAll (itemIdPat ++ rest) = rest := by
      rw [removeItemIdAll_here]
      exact removeItemIdAll_of_not_contains rest.length rest le_rfl hc
    have hd : (itemIdPat ++ rest).drop 9 = rest := rfl
    constructor
    · simp [decodePayload, isPrefixOf_append_self, h3]
    · simp [decodePayload, decodePayloadSpec, isPrefixOf_append_self, h3, hd]

/-- C4, witness: `decodePayload "garbage"` is NotRecognized, by the theorem. -/
theorem C4_witness : decodePayload (chars "garbage") = none :=
  (C4_decodePayload (chars "garbage") []).1.mpr (by decide)

/-! ## Claim C2 -/

/-- C2, counterexample: `load_data` with no persisted table file does NOT
return an empty sequence. -/
theorem C2_cex : (load_data none).2 ≠ [] := by decide

/-- C2 (amended): `load_data` with no persisted table file does not fail: it
first writes the three sample records and returns them (records of the
defined column schema), rather than an empty sequence. -/
theorem C2_load_missing : load_data none = (some sampleRows, sampleRows) ∧
    (load_data none).2.length = 3 := by decide

/-! ## Claim C10 -/

/-- C10: `load_data` is not read-only: when the table file is missing or holds
zero records it writes the three fixed sample records (their hard-coded ids
listed below) and returns them — overwriting an existing empty table file —
while an existing non-empty table is returned unchanged. -/
theorem C10_load_seeds_samples :
    load_data none = (some (sampleRows.map normRow), sampleRows.map normRow) ∧
    load_data (some []) = (some (sampleRows.map normRow), sampleRows.map normRow) ∧
    sampleRows.map normRow = sampleRows ∧
    sampleRows.length = 3 ∧
    sampleRows.map (fun r => r.id) =
      [Cell.str (chars "11111111-aaaa-bbbb-cccc-111111111111"),
       Cell.str (chars "22222222-bbbb-cccc-dddd-222222222222"),
       Cell.str (chars "33333333-cccc-dddd-eeee-333333333333")] ∧
    ∀ rows, rows ≠ [] → load_data (some rows) = (some rows, rows) :=
  ⟨by decide, by decide, by decide, by decide, by decide,
   fun rows h => load_data_ne_nil rows h⟩

/-- C10, witness: an existing non-empty table is not overwritten. -/
theorem C10_witness : load_data (some sampleRows) = (some sampleRows, sampleRows) :=
  C10_load_seeds_samples.2.2.2.2.2 sampleRows (by decide)

/-! ## Claim C6 -/

/-- C6: the lookup `df[df["id"] == item_id]` followed by `.iloc[0]` returns
the first record in table order whose id field equals the given id, and
yields the NotFound outcome (`none`) exactly when no record's id matches. -/
theorem C6_findRows_first (rows : List Row) (id : List Char) :
    (findRows rows id = none ↔ ∀ r ∈ rows, r.id ≠ Cell.str id) ∧
    (∀ r, findRows rows id = some r →
      r.id = Cell.str id ∧
      ∃ pre post, rows = pre ++ r :: post ∧ ∀ r' ∈ pre, r'.id ≠ Cell.str id) := by
  induction rows with
  | nil => simp [findRows]
  | cons a as ih =>
    by_cases h : a.id = Cell.str id
    · have hf : findRows (a :: as) id = some a := by
        simp [findRows, List.filter_cons, h]
      constructor
      · exact ⟨fun habs => absurd habs (by simp [hf]),
          fun hall => absurd h (hall a (List.mem_cons_self a as))⟩
      · intro r hr
        rw [hf] at hr
        injection hr with e
        subst e
        exact ⟨h, [], as, rfl, by simp⟩
    · have hf : findRows (a :: as) id = findRows as id := by
        simp [findRows, List.filter_cons, h]
      constructor
      · rw [hf, ih.1, List.forall_mem_cons]
        simp [h]
      · intro r hr
        rw [hf] at hr
        obtain ⟨h1, pre, post, heq, hpre⟩ := ih.2 r hr
        refine ⟨h1, a :: pre, post, ?_, ?_⟩
        · rw [List.cons_append, heq]
        · intro r' hr'
          rcases List.mem_cons.mp hr' with e | m
          · rw [e]
            exact h
          · exact hpre r' m
/-- C6, witness: `findById` at an id absent from the table is NotFound. -/
theorem C6_witness : findRows sampleRows (chars "nonexistent-id") = none :=
  (C6_findRows_first sampleRows (chars "nonexistent-id")).1.mpr (by decide)

/-! ## Claim C3 -/

theorem normCell_str {s : List Char} (h : s ≠ []) : normCell (Cell.str s) = Cell.str s := by
  cases s with
  | nil => exact absurd rfl h
  | cons a l => rfl

theorem normCell_num (q : ℚ) : normCell (Cell.num q) = Cell.num q := rfl

theorem normCell_eq_str {c : Cell} {s : List Char} (hs : s ≠ []) :
    normCell c = Cell.str s ↔ c = Cell.str s := by
  cases c with
  | str l =>
    cases l with
    | nil => simp [normCell, eq_comm, hs]
    | cons a l => simp [normCell]
  | num q => simp [normCell]
  | nan => simp [normCell]

/-- C3, counterexample: appending an item whose description (and image path)
is the empty string, then looking it up by id, returns a record that is NOT
equal to the appended item — the empty string fields read back as missing
values — so the round trip as claimed fails for this item. -/
theorem C3_cex :
    (findById (append_report (some sampleRows) item44) item44.id).2 ≠
      some (itemToRow item44) ∧
    (findById (append_report (some sampleRows) item44) item44.id).2 =
      some (normRow (itemToRow item44)) := by
  decide

/-- C3 (amended): for every item appended via the report path whose id is
non-empty and not already present in the (post-load) table, a subsequent
`findById` with that item's id returns the stored record of the item — its
row with every empty string field read back as a missing value — and returns
the appended record itself whenever all the item's string fields are
non-empty. -/
theorem C3_append_find (fs : StoreState) (it : Item)
    (hid : it.id ≠ [])
    (hfresh : ∀ r ∈ (load_data fs).2, r.id ≠ Cell.str it.id) :
    (findById (append_report fs it) it.id).2 = some (normRow (itemToRow it)) ∧
    ((∀ s ∈ strFields it, s ≠ []) →
      (findById (append_report fs it) it.id).2 = some (itemToRow it)) := by
  have hL : append_report fs it =
      some ((load_data fs).2.map normRow ++ [normRow (itemToRow it)]) := by
    simp [append_report, save_data]
  have hload2 : (load_data (append_report fs it)).2 =
      (load_data fs).2.map normRow ++ [normRow (itemToRow it)] := by
    rw [hL, load_data_ne_nil _ (by simp)]
  have hmatch : (normRow (itemToRow it)).id = Cell.str it.id := normCell_str hid
  have hfind : findRows ((load_data fs).2.map normRow ++ [normRow (itemToRow it)]) it.id =
      some (normRow (itemToRow it)) := by
    rw [findRows, List.filter_append]
    have hnil : ((load_data fs).2.map normRow).filter
        (fun r => decide (r.id = Cell.str it.id)) = [] := by
      rw [List.filter_eq_nil_iff]
      intro r' hr'
      obtain ⟨r, hrL, hre⟩ := List.mem_map.mp hr'
      subst hre
      simp only [decide_eq_true_eq]
      intro habs
      exact hfresh r hrL ((normCell_eq_str hid).mp habs)
    rw [hnil]
    simp [hmatch]
  have main : (findById (append_report fs it) it.id).2 = some (normRow (itemToRow it)) := by
    show findRows (load_data (append_report fs it)).2 it.id = some (normRow (itemToRow it))
    rw [hload2]
    exact hfind
  refine ⟨main, fun hstr => ?_⟩
  rw [main]
  have h1 := hstr it.id (by simp [strFields])
  have h2 := hstr it.type (by simp [strFields])
  have h3 := hstr it.title (by simp [strFields])
  have h4 := hstr it.description (by simp [strFields])
  have h5 := hstr it.category (by simp [strFields])
  have h6 := hstr it.image_path (by simp [strFields])
  have h7 := hstr it.reported_at (by simp [strFields])
  have h8 := hstr it.qr_code_path (by simp [strFields])
  simp [normRow, itemToRow, normCell_num,
    normCell_str h1, normCell_str h2, normCell_str h3, normCell_str h4,
    normCell_str h5, normCell_str h6, normCell_str h7, normCell_str h8]

/-- C3, witness: the amended round trip at a concrete fresh item. -/
theorem C3_witness :
    (findById (append_report (some sampleRows) item55) item55.id).2 =
      some (itemToRow item55) :=
  (C3_append_find (some sampleRows) item55 (by decide) (by decide)).2 (by decide)

/-! ## Claim C7 -/

theorem normCell_normCell (c : Cell) : normCell (normCell c) = normCell c := by
  cases c with
  | str s => cases s with
    | nil => rfl
    | cons a l => rfl
  | num q => rfl
  | nan => rfl

theorem normRow_normRow (r : Row) : normRow (normRow r) = normRow r := by
  simp [normRow, normCell_normCell]

theorem loaded_map_norm (fs : StoreState) (h : Normalized fs) :
    (load_data fs).2.map normRow = (load_data fs).2 := by
  cases fs with
  | none => decide
  | some rows =>
    cases rows with
    | nil => decide
    | cons a as =>
      rw [load_data_ne_nil _ (by simp)]
      exact h

/-- C7: on a persisted table state (which the CSV round trip leaves fixed),
the append of `report_item_page` adds exactly one record — the new item's
row as stored — at the end of the table and leaves every previously stored
record unchanged; moreover no operation updates or deletes an existing
record: the prior table is a prefix of the table after a load (which may
seed samples) and after an append, and both leave the state normalised. -/
theorem C7_append_frame (fs : StoreState) (it : Item) (h : Normalized fs) :
    (load_data (append_report fs it)).2 = (load_data fs).2 ++ [normRow (itemToRow it)] ∧
    (load_data (append_report fs it)).2.length = (load_data fs).2.length + 1 ∧
    fs.getD [] <+: ((load_data fs).1.getD []) ∧
    fs.getD [] <+: ((append_report fs it).getD []) ∧
    Normalized ((load_data fs).1) ∧
    Normalized (append_report fs it) := by
  have hL : append_report fs it =
      some ((load_data fs).2 ++ [normRow (itemToRow it)]) := by
    simp [append_report, save_data, loaded_map_norm fs h]
  have p1 : (load_data (append_report fs it)).2 =
      (load_data fs).2 ++ [normRow (itemToRow it)] := by
    rw [hL, load_data_ne_nil _ (by simp)]
  refine ⟨p1, by rw [p1]; simp, ?_, ?_, ?_, ?_⟩
  · cases fs with
    | none => exact List.nil_prefix
    | some rows =>
      cases rows with
      | nil => exact List.nil_prefix
      | cons a as =>
        rw [load_data_ne_nil _ (by simp)]
  · rw [hL]
    cases fs with
    | none => exact List.nil_prefix
    | some rows =>
      cases rows with
      | nil => exact List.nil_prefix
      | cons a as =>
        rw [load_data_ne_nil _ (by simp)]
        exact List.prefix_append _ _
  · cases fs with
    | none => decide
    | some rows =>
      cases rows with
      | nil => decide
      | cons a as =>
        rw [load_data_ne_nil _ (by simp)]
        exact h
  · rw [hL]
    show ((load_data fs).2 ++ [normRow (itemToRow it)]).map normRow =
      (load_data fs).2 ++ [normRow (itemToRow it)]
    rw [List.map_append, loaded_map_norm fs h]
    simp [normRow_normRow]

/-- C7, witness: the frame property at a concrete state and item. -/
theorem C7_witness :
    (load_data (append_report (some sampleRows) item77)).2 =
      (load_data (some sampleRows)).2 ++ [normRow (itemToRow item77)] :=
  (C7_append_frame (some sampleRows) item77 (by decide)).1

/-! ## Claim C8 -/

/-- C8, counterexample: `report_item_page` performs no validation, so a
submission with an empty title is accepted and stored; the resulting fourth
record's title field is a missing value, not a non-empty string. -/
theorem C8_cex :
    (load_data (append_report (some sampleRows) item66)).2.length = 4 ∧
    (load_data (append_report (some sampleRows) item66)).2.map (fun r => r.title) =
      [Cell.str (chars "Blue Backpack"), Cell.str (chars "Silver Wristwatch"),
       Cell.str (chars "Black Jacket"), Cell.nan] := by
  decide

theorem titleOkCell_norm (c : Cell) : titleOkCell (normCell c) = titleOkCell c := by
  cases c with
  | str s => cases s with
    | nil => rfl
    | cons a l => rfl
  | num q => rfl
  | nan => rfl

theorem loaded_titles_ok (fs : StoreState) (h : TitlesOk fs) :
    (load_data fs).2.all (fun r => titleOkCell r.title) = true := by
  cases fs with
  | none => decide
  | some rows =>
    cases rows with
    | nil => decide
    | cons a as =>
      rw [load_data_ne_nil _ (by simp)]
      exact h

/-- C8 (amended): the store does not enforce non-empty titles (see the
counterexample); but when the submitted title is non-empty, the non-empty-
title invariant is preserved: if every stored record's title is a non-empty
string, that still holds after a load (which may seed the sample records,
whose titles are non-empty) and after the append of the submission. -/
theorem C8_title_invariant (fs : StoreState) (it : Item)
    (h : TitlesOk fs) (ht : it.title ≠ []) :
    TitlesOk ((load_data fs).1) ∧ TitlesOk (append_report fs it) := by
  constructor
  · cases fs with
    | none => decide
    | some rows =>
      cases rows with
      | nil => decide
      | cons a as =>
        rw [load_data_ne_nil _ (by simp)]
        exact h
  · show (((load_data fs).2 ++ [itemToRow it]).map normRow).all
      (fun r => titleOkCell r.title) = true
    rw [List.all_eq_true]
    intro r hr
    obtain ⟨r0, hr0, hre⟩ := List.mem_map.mp hr
    subst hre
    show titleOkCell (normCell r0.title) = true
    rw [titleOkCell_norm]
    rcases List.mem_append.mp hr0 with hmem | hmem
    · exact (List.all_eq_true.mp (loaded_titles_ok fs h)) r0 hmem
    · rcases List.mem_singleton.mp hmem with rfl
      show titleOkCell (Cell.str it.title) = true
      cases hcase : it.title with
      | nil => exact absurd hcase ht
      | cons a l => rfl

/-- C8, witness: the preserved invariant at a concrete state and item. -/
theorem C8_witness :
    TitlesOk ((load_data (some sampleRows)).1) ∧
    TitlesOk (append_report (some sampleRows) item88) :=
  C8_title_invariant (some sampleRows) item88 (by decide) (by decide)

/-! ## Claims C5 and C9 -/

theorem kindFilter_eq (kind : Option (List Char)) (rows : List Row) :
    kindFilter kind rows = rows.filter (kindPred kind) := by
  cases kind with
  | none => exact (List.filter_true rows).symm
  | some k => rfl

theorem searchRow_str (term : List Char) (r : Row)
    (h1 : isStrCell r.title = true) (h2 : isStrCell r.description = true) :
    searchRow term r = some (searchPred term r) := by
  cases ht : r.title with
  | str t =>
    cases hd : r.description with
    | str d =>
      simp only [searchRow, searchPred, cellText, ht, hd]
      by_cases hc : containsSub (pyLower term) (pyLower t) = true
      · simp [hc]
      · simp [hc]
    | num q => rw [hd] at h2; exact absurd h2 (by simp [isStrCell])
    | nan => rw [hd] at h2; exact absurd h2 (by simp [isStrCell])
  | num q => rw [ht] at h1; exact absurd h1 (by simp [isStrCell])
  | nan => rw [ht] at h1; exact absurd h1 (by simp [isStrCell])

theorem searchFilter_all_str (term : List Char) (l : List Row)
    (h : ∀ r ∈ l, isStrCell r.title = true ∧ isStrCell r.description = true) :
    searchFilter term l = some (l.filter (searchPred term)) := by
  induction l with
  | nil => rfl
  | cons r rs ih =>
    have hr := h r (List.mem_cons_self r rs)
    have hrs := ih fun r' hr' => h r' (List.mem_cons_of_mem r hr')
    rw [searchFilter, searchRow_str term r hr.1 hr.2, hrs, List.filter_cons]

theorem searchRow_lower (term : List Char) (r : Row) :
    searchRow (pyLower term) r = searchRow term r := by
  simp [searchRow, pyLower_pyLower]

theorem searchRow_upper (term : List Char) (r : Row) :
    searchRow (pyUpper term) r = searchRow term r := by
  simp [searchRow, pyLower_pyUpper]

theorem searchFilter_congr (t1 t2 : List Char)
    (h : ∀ r, searchRow t1 r = searchRow t2 r) (l : List Row) :
    searchFilter t1 l = searchFilter t2 l := by
  induction l with
  | nil => rfl
  | cons r rs ih => rw [searchFilter, searchFilter, h r, ih]

theorem browseFilter_lower (kind : Option (List Char)) (term : List Char) (rows : List Row) :
    browseFilter kind (pyLower term) rows = browseFilter kind term rows := by
  by_cases h : term = []
  · subst h
    rfl
  · rw [browseFilter, browseFilter, if_neg h, if_neg (by simpa [pyLower_eq_nil] using h)]
    exact searchFilter_congr _ _ (searchRow_lower term) _

theorem browseFilter_upper (kind : Option (List Char)) (term : List Char) (rows : List Row) :
    browseFilter kind (pyUpper term) rows = browseFilter kind term rows := by
  by_cases h : term = []
  · subst h
    rfl
  · have hne : pyUpper term ≠ [] := by simpa [pyUpper] using h
    rw [browseFilter, browseFilter, if_neg h, if_neg hne]
    exact searchFilter_congr _ _ (searchRow_upper term) _

/-- C5: when every record surviving the type filter has string title and
description cells, the browse filter returns exactly the records whose type
equals the selected kind (all records when "All" is selected) and — when a
search term is given — whose title or description contains the term
case-insensitively; and lowercasing or uppercasing the search term never
changes the result. -/
theorem C5_browse_exact (rows : List Row) (kind : Option (List Char)) (term : List Char)
    (h : ∀ r ∈ kindFilter kind rows,
      isStrCell r.title = true ∧ isStrCell r.description = true) :
    (term ≠ [] → browseFilter kind term rows =
      some (rows.filter (fun r => kindPred kind r && searchPred term r))) ∧
    (term = [] → browseFilter kind term rows = some (rows.filter (kindPred kind))) ∧
    browseFilter kind (pyLower term) rows = browseFilter kind term rows ∧
    browseFilter kind (pyUpper term) rows = browseFilter kind term rows := by
  refine ⟨?_, ?_, browseFilter_lower kind term rows, browseFilter_upper kind term rows⟩
  · intro hterm
    rw [browseFilter, if_neg hterm, searchFilter_all_str term _ h, kindFilter_eq,
      List.filter_filter]
    congr 1
    exact List.filter_congr fun r _ => Bool.and_comm _ _
  · intro hterm
    rw [browseFilter, if_pos hterm, kindFilter_eq]

/-- C5, witness: searching the sample table for lost items matching "JACKET"
returns exactly the lost records whose text contains "jacket". -/
theorem C5_witness :
    browseFilter (some (chars "lost")) (chars "JACKET") sampleRows =
      some (sampleRows.filter (fun r =>
        kindPred (some (chars "lost")) r && searchPred (chars "JACKET") r)) :=
  (C5_browse_exact sampleRows (some (chars "lost")) (chars "JACKET") (by decide)).1
    (by decide)

/-- C9: the title/description search is total when every record's title and
description cells are strings; but after appending an item whose description
is the empty string, the reloaded table holds a record with a missing
description, and the search (with a term not matching that record's title)
raises (`none`) instead of returning a result sequence without that
record. -/
theorem C9_search_raises (rows : List Row) (term : List Char)
    (h : ∀ r ∈ rows, isStrCell r.title = true ∧ isStrCell r.description = true) :
    (searchFilter term rows).isSome = true ∧
    (load_data (append_report (some sampleRows) item99)).2.map (fun r => r.description) =
      [Cell.str (chars "Lost a blue backpack near the library"),
       Cell.str (chars "Found a silver wristwatch in the cafeteria"),
       Cell.str (chars "Black jacket lost in auditorium"),
       Cell.nan] ∧
    browseFilter none (chars "zq") (load_data (append_report (some sampleRows) item99)).2 =
      none := by
  refine ⟨?_, by decide, by decide⟩
  rw [searchFilter_all_str term rows h]
  rfl

/-- C9, witness: totality of the search on the all-string sample table. -/
theorem C9_witness : (searchFilter (chars "pen") sampleRows).isSome = true :=
  (C9_search_raises sampleRows (chars "pen") (by decide)).1

end LostFound
